import Mathlib

/-!
Verification of the guidance-generation core of the `mcp-enterprise-support-demo`
server (`src/index.ts`).  The data model and the four tool operations are embedded
shallowly: timestamps are epoch milliseconds (the TypeScript parses ISO strings
through `Date` before any arithmetic), JavaScript string operations are modelled
on `List Char`, and the one place where the TypeScript can throw (dereferencing a
missing escalation rule in the `escalation` branch of `generateResponseGuidance`)
is modelled as an `Option` returning `none`.
-/

namespace McpSupport

/-- Does `hay` begin with `needle`?  Character-level model of the test JavaScript
performs at each position of `String.prototype.includes`. -/
def startsWithChars : List Char → List Char → Bool
  | _, [] => true
  | [], _ :: _ => false
  | a :: as, b :: bs => a == b && startsWithChars as bs

/-- Does `hay` contain `needle` as a contiguous substring?  Model of
JavaScript `String.prototype.includes`. -/
def containsChars : List Char → List Char → Bool
  | [], needle => needle.isEmpty
  | a :: as, needle => startsWithChars (a :: as) needle || containsChars as needle

/-- `strContains hay needle` models `hay.includes(needle)` on JavaScript strings. -/
def strContains (hay needle : String) : Bool :=
  containsChars hay.toList needle.toList

/-- Model of `String.prototype.toLowerCase()`: lower-case every character.
(Defined over the character list so that it evaluates by `decide`.) -/
def strToLower (s : String) : String :=
  String.mk (s.toList.map Char.toLower)

/-- Insert a comma after every third character of a reversed digit list;
helper for `formatWithCommas`. -/
def insertCommasRev : List Char → Nat → List Char
  | [], _ => []
  | c :: cs, n =>
    if n ≠ 0 && n % 3 == 0 then ',' :: c :: insertCommasRev cs (n + 1)
    else c :: insertCommasRev cs (n + 1)

/-- Model of `Number.prototype.toLocaleString()` for the nonnegative integers
stored in `contractValue`: decimal digits grouped in threes by commas. -/
def formatWithCommas (n : Nat) : String :=
  String.mk (insertCommasRev (toString n).toList.reverse 0).reverse

structure Contact where
  name : String
  role : String
  email : String
  primary : Bool
  deriving DecidableEq, Repr

structure ApiUsage where
  monthlyTokens : Nat
  monthlyLimit : Nat
  utilizationPercent : Nat
  deriving DecidableEq, Repr

structure SupportHistory where
  totalTickets : Nat
  avgResolutionHours : Nat
  csat : Nat
  deriving DecidableEq, Repr

structure Customer where
  id : String
  company : String
  tier : String
  accountManager : Option String
  contractValue : Nat
  renewalDate : String
  products : List String
  apiUsage : ApiUsage
  knownIssues : List String
  supportHistory : SupportHistory
  contacts : List Contact
  flags : List String
  deriving DecidableEq, Repr

/-- Ticket record.  `createdAt` is the creation timestamp in epoch milliseconds
(the TypeScript stores an ISO string and converts with `new Date(...).getTime()`
before any arithmetic; the parse itself is transport plumbing). -/
structure Ticket where
  id : String
  customerId : String
  subject : String
  status : String
  priority : String
  createdAt : Int
  lastUpdated : String
  assignee : String
  description : String
  tags : List String
  deriving DecidableEq, Repr

structure EscalationRule where
  maxResponseTime : String
  escalateTo : String
  autoEscalateAfter : String
  deriving DecidableEq, Repr

/-- The static record store.  `escalationRules` is a `Record<string, EscalationRule>`
in the TypeScript; keyed lookup is modelled as first match in an association list. -/
structure Database where
  customers : List Customer
  tickets : List Ticket
  escalationRules : List (String × EscalationRule)
  deriving DecidableEq, Repr

/-- `database.escalationRules[tier]`: exact key lookup in the rule table. -/
def lookupRule (rules : List (String × EscalationRule)) (tier : String) :
    Option EscalationRule :=
  (rules.find? (fun p => p.fst == tier)).map Prod.snd

/-- Result of `generateSupportGuidance` (`src/index.ts:315`). -/
structure SupportGuidance where
  priorityLevel : String
  responseTimeTarget : String
  keyGuidance : List String
  accountManager : Option String
  deriving DecidableEq, Repr

/-- `generateSupportGuidance` (`src/index.ts:315-358`): sequential `guidance.push`
calls become a chain of conditional appends, in the order of the source.
`?.maxResponseTime || "24 hours"` falls back both when the rule is absent and when
its `maxResponseTime` is the empty string (JavaScript `||` on a falsy value). -/
def generateSupportGuidance (db : Database) (customer : Customer) : SupportGuidance :=
  let guidance : List String := []
  let guidance :=
    if customer.tier == "Enterprise Plus" then
      guidance ++ ["🔴 STRATEGIC ACCOUNT - White-glove service required",
                   "Always CC account manager on responses",
                   "Proactive status updates every 2 hours for open issues"]
    else if customer.tier == "Enterprise" then
      guidance ++ ["Enterprise customer - Prioritize and personalize",
                   "Loop in account manager for complex issues"]
    else guidance
  let guidance :=
    if customer.flags.contains "HIGH_VALUE" then
      guidance ++ ["💰 High-value account - Extra care on all interactions"]
    else guidance
  let guidance :=
    if customer.flags.contains "APPROACHING_RENEWAL" then
      guidance ++ ["⚠️ Renewal approaching - Ensure positive experience"]
    else guidance
  let guidance :=
    if customer.flags.contains "EXPANSION_OPPORTUNITY" then
      guidance ++ ["📈 Expansion opportunity - Note upsell potential"]
    else guidance
  let guidance :=
    if customer.flags.contains "COMPLIANCE_SENSITIVE" then
      guidance ++ ["🔒 Compliance-sensitive - Document all interactions thoroughly"]
    else guidance
  let guidance :=
    if customer.apiUsage.utilizationPercent ≥ 90 then
      guidance ++ ["⚡ Approaching API limit - Proactively discuss upgrade options"]
    else guidance
  let guidance :=
    if customer.knownIssues.length > 0 then
      guidance ++ ["📋 Known issues to be aware of: " ++
        String.intercalate "; " customer.knownIssues]
    else guidance
  { priorityLevel := if strContains customer.tier "Enterprise" then "HIGH" else "STANDARD"
    responseTimeTarget :=
      match lookupRule db.escalationRules customer.tier with
      | some r => if r.maxResponseTime == "" then "24 hours" else r.maxResponseTime
      | none => "24 hours"
    keyGuidance := guidance
    accountManager := customer.accountManager }

/-- `customer.contacts.find(c => c.primary)?.name`. -/
def primaryContactName (customer : Customer) : Option String :=
  (customer.contacts.find? (fun c => c.primary)).map (fun c => c.name)

/-- `customer.contacts.find(c => c.primary)?.name || "there"`: JavaScript `||`
substitutes the placeholder both when no primary contact exists and when the
primary contact name is the empty string. -/
def greetingName (customer : Customer) : String :=
  match primaryContactName customer with
  | some n => if n == "" then "there" else n
  | none => "there"

/-- Result of `lookup_customer` (`src/index.ts:105-175`).  The found payload
carries the matched customer and the derived support guidance; the remaining
fields of the TypeScript context object are verbatim copies or display
formattings of customer fields. -/
inductive LookupResult where
  | found (customer : Customer) (supportGuidance : SupportGuidance)
  | notFound (message : String) (suggestion : String)
  deriving DecidableEq, Repr

/-- The match predicate of `lookup_customer` (`src/index.ts:113-116`), applied to
the already-lowercased query: exact id match or company-substring match, both
case-insensitive. -/
def customerMatches (searchLower : String) (c : Customer) : Bool :=
  strToLower c.id == searchLower || strContains (strToLower c.company) searchLower

/-- `database.customers.find(...)` inside `lookup_customer`. -/
def findCustomer (db : Database) (query : String) : Option Customer :=
  db.customers.find? (customerMatches (strToLower query))

/-- The `lookup_customer` tool (`src/index.ts:105-175`). -/
def lookup_customer (db : Database) (query : String) : LookupResult :=
  match findCustomer db query with
  | some c => .found c (generateSupportGuidance db c)
  | none =>
    .notFound ("No customer found matching \"" ++ query ++ "\"")
      "Try searching by company name or customer ID (e.g., ENT-001)"

def msPerDay : Int := 1000 * 60 * 60 * 24

/-- `Math.ceil (a / b)` for integer `a` and positive integer `b`: the ceiling is
the negated floor (`Int.ediv`) of the negation. -/
def ceilDivInt (a b : Int) : Int := -((-a) / b)

/-- `Math.ceil((now - createdAt) / (1000*60*60*24))` (`src/index.ts:216-218`). -/
def ticketAgeInDays (now createdAt : Int) : Int :=
  ceilDivInt (now - createdAt) msPerDay

/-- The statuses `get_open_tickets` counts as open (`src/index.ts:203`). -/
def openStatuses : List String := ["open", "pending", "in_progress"]

/-- One entry of the `tickets` array in the `get_open_tickets` payload
(`src/index.ts:211-222`). -/
structure TicketView where
  id : String
  subject : String
  status : String
  priority : String
  ageInDays : Int
  lastUpdated : String
  assignee : String
  tags : List String
  deriving DecidableEq, Repr

/-- The per-ticket projection of `src/index.ts:211-222`. -/
def ticketView (now : Int) (t : Ticket) : TicketView :=
  { id := t.id
    subject := t.subject
    status := t.status
    priority := t.priority
    ageInDays := ticketAgeInDays now t.createdAt
    lastUpdated := t.lastUpdated
    assignee := t.assignee
    tags := t.tags }

/-- The `ticketSummary` payload of `get_open_tickets` (`src/index.ts:206-224`). -/
structure TicketSummary where
  customerId : String
  company : String
  tier : String
  openTicketCount : Nat
  tickets : List TicketView
  escalationRule : Option EscalationRule
  deriving DecidableEq, Repr

inductive OpenTicketsResult where
  | found (s : TicketSummary)
  | notFound (message : String)
  deriving DecidableEq, Repr

/-- The `get_open_tickets` tool (`src/index.ts:181-233`).  `now` is the value of
`Date.now()` at the invocation. -/
def get_open_tickets (db : Database) (customerId : String) (now : Int) :
    OpenTicketsResult :=
  match db.customers.find? (fun c => c.id == customerId) with
  | none => .notFound ("No customer found with ID \"" ++ customerId ++ "\"")
  | some customer =>
    let tickets := db.tickets.filter
      (fun t => t.customerId == customerId && openStatuses.contains t.status)
    .found
      { customerId := customerId
        company := customer.company
        tier := customer.tier
        openTicketCount := tickets.length
        tickets := tickets.map (ticketView now)
        escalationRule := lookupRule db.escalationRules customer.tier }

/-- The `customer` sub-object of the `generateResponseGuidance` payload
(`src/index.ts:365-369`). -/
structure RespCustomer where
  company : String
  tier : String
  primaryContact : Option String
  deriving DecidableEq, Repr

/-- Result of `generateResponseGuidance` (`src/index.ts:363-417`). -/
structure ResponseGuidance where
  customer : RespCustomer
  issueType : String
  responseTemplate : String
  toneGuidance : List String
  escalationPath : Option EscalationRule
  additionalContext : List String
  deriving DecidableEq, Repr

/-- `generateResponseGuidance` (`src/index.ts:363-417`).  The `switch` becomes a
conditional chain (the `api` and `technical` cases share a body).  In the
`escalation` case the TypeScript dereferences
`database.escalationRules[customer.tier].escalateTo` without a guard
(`src/index.ts:406`): when no rule exists for the tier this throws a
`TypeError`, modelled here as `none`. -/
def generateResponseGuidance (db : Database) (customer : Customer)
    (issueType : String) : Option ResponseGuidance :=
  let tone : List String :=
    if strContains customer.tier "Enterprise" then
      ["Use professional, consultative tone",
       "Reference their specific use case if known",
       "Offer direct line or meeting for complex issues"]
    else
      ["Friendly and helpful tone",
       "Clear, step-by-step guidance"]
  let base : ResponseGuidance :=
    { customer :=
        { company := customer.company
          tier := customer.tier
          primaryContact := primaryContactName customer }
      issueType := issueType
      responseTemplate := ""
      toneGuidance := tone
      escalationPath := lookupRule db.escalationRules customer.tier
      additionalContext := [] }
  if issueType == "billing" then
    some { base with
      responseTemplate :=
        "Hi " ++ greetingName customer ++
        ",\n\nThank you for reaching out about your billing inquiry. [Address specific question]\n\nFor reference, your current plan is " ++
        String.intercalate ", " customer.products ++ " at $" ++
        formatWithCommas customer.contractValue ++
        "/year.\n\n[Resolution or next steps]"
      additionalContext :=
        ["Contract value: $" ++ formatWithCommas customer.contractValue,
         "Renewal date: " ++ customer.renewalDate] }
  else if issueType == "api" || issueType == "technical" then
    some { base with
      responseTemplate :=
        "Hi " ++ greetingName customer ++
        ",\n\nThank you for reporting this technical issue. [Acknowledge the problem]\n\nCurrent API usage: " ++
        toString customer.apiUsage.utilizationPercent ++
        "% of monthly limit\n\n[Technical solution or investigation steps]"
      additionalContext :=
        ["API utilization: " ++ toString customer.apiUsage.utilizationPercent ++ "%",
         "Products: " ++ String.intercalate ", " customer.products] ++
        (if customer.knownIssues.length > 0 then
          ["Known issues: " ++ String.intercalate "; " customer.knownIssues]
        else []) }
  else if issueType == "escalation" then
    match lookupRule db.escalationRules customer.tier with
    | none => none
    | some rule =>
      some { base with
        responseTemplate :=
          "Hi " ++ greetingName customer ++
          ",\n\nI understand the urgency of this issue and I\x27m escalating this to " ++
          rule.escalateTo ++
          " immediately.\n\n[Summary of issue and actions taken]\n\nYou can expect an update within [timeframe based on SLA]."
        toneGuidance := tone ++
          ["Acknowledge frustration", "Provide concrete timeline", "Take ownership"] }
  else
    some { base with
      responseTemplate :=
        "Hi " ++ greetingName customer ++
        ",\n\nThank you for contacting Anthropic support. [Address their inquiry]\n\n[Resolution or next steps]" }

inductive GuidanceResult where
  | ok (g : ResponseGuidance)
  | notFound (message : String)
  | fault
  deriving DecidableEq, Repr

/-- The `get_response_guidance` tool (`src/index.ts:239-270`).  `fault` records
the case where the helper throws (missing escalation rule on the `escalation`
path) and the invocation fails instead of returning a payload. -/
def get_response_guidance (db : Database) (customerId issueType : String) :
    GuidanceResult :=
  match db.customers.find? (fun c => c.id == customerId) with
  | none => .notFound ("No customer found with ID \"" ++ customerId ++ "\"")
  | some customer =>
    match generateResponseGuidance db customer issueType with
    | some g => .ok g
    | none => .fault

/-! ### Concrete records

`data/customers.json` is not part of the source tree verified here; the records
below instantiate the data model for concrete evaluations.  The escalation-rule
table is the one component whose contents decide a claim, and is modelled from
the specification. -/

def standardRule : EscalationRule :=
  { maxResponseTime := "24 hours", escalateTo := "Support Team Lead",
    autoEscalateAfter := "48 hours" }

def growthRule : EscalationRule :=
  { maxResponseTime := "12 hours", escalateTo := "Support Team Lead",
    autoEscalateAfter := "24 hours" }

def enterpriseRule : EscalationRule :=
  { maxResponseTime := "4 hours", escalateTo := "Senior Support Engineer",
    autoEscalateAfter := "8 hours" }

def enterprisePlusRule : EscalationRule :=
  { maxResponseTime := "1 hour", escalateTo := "Head of Customer Success",
    autoEscalateAfter := "2 hours" }

/-- Modelled from the spec: the static escalation-rule table of
`data/customers.json`, which is not under the verified source directory.  Per
the data model there is exactly one rule per known tier, keyed by tier name,
with a non-empty max response time; the repository documentation fixes the
Enterprise target at 4 hours and the Enterprise Plus target at 1 hour. -/
def specEscalationRules : List (String × EscalationRule) :=
  [("Standard", standardRule),
   ("Growth", growthRule),
   ("Enterprise", enterpriseRule),
   ("Enterprise Plus", enterprisePlusRule)]

/-- The Enterprise-tier customer the repository documentation describes
(id ENT-001, Acme Corporation, 90% utilization, HIGH_VALUE and
EXPANSION_OPPORTUNITY flags, one known issue). -/
def acme : Customer :=
  { id := "ENT-001"
    company := "Acme Corporation"
    tier := "Enterprise"
    accountManager := some "Sarah Mitchell"
    contractValue := 125000
    renewalDate := "2026-03-15"
    products := ["Claude API", "Claude Enterprise"]
    apiUsage := { monthlyTokens := 900000, monthlyLimit := 1000000,
                  utilizationPercent := 90 }
    knownIssues := ["Rate limiting concerns during peak hours"]
    supportHistory := { totalTickets := 12, avgResolutionHours := 8, csat := 4 }
    contacts := [{ name := "Jordan Lee", role := "CTO",
                   email := "jordan@acme.example", primary := true }]
    flags := ["HIGH_VALUE", "EXPANSION_OPPORTUNITY"] }

/-- An Enterprise Plus customer. -/
def globalFinance : Customer :=
  { id := "ENT-002"
    company := "Global Finance Ltd"
    tier := "Enterprise Plus"
    accountManager := some "Priya Nair"
    contractValue := 500000
    renewalDate := "2026-06-01"
    products := ["Claude API"]
    apiUsage := { monthlyTokens := 400000, monthlyLimit := 1000000,
                  utilizationPercent := 40 }
    knownIssues := []
    supportHistory := { totalTickets := 5, avgResolutionHours := 4, csat := 5 }
    contacts := []
    flags := ["STRATEGIC_ACCOUNT", "HIGH_VALUE"] }

/-- A customer whose tier has no entry in the escalation rule table. -/
def goldCustomer : Customer :=
  { id := "STD-099"
    company := "Smallco"
    tier := "Gold"
    accountManager := none
    contractValue := 12000
    renewalDate := "2026-01-01"
    products := ["Claude API"]
    apiUsage := { monthlyTokens := 10000, monthlyLimit := 1000000,
                  utilizationPercent := 1 }
    knownIssues := []
    supportHistory := { totalTickets := 1, avgResolutionHours := 24, csat := 3 }
    contacts := []
    flags := [] }

def openTicket : Ticket :=
  { id := "TKT-100", customerId := "ENT-001", subject := "Rate limiting",
    status := "open", priority := "high", createdAt := 0,
    lastUpdated := "2025-10-08", assignee := "Dana", description := "429s at peak",
    tags := ["api"] }

def resolvedTicket : Ticket :=
  { id := "TKT-101", customerId := "ENT-001", subject := "Old question",
    status := "resolved", priority := "low", createdAt := 0,
    lastUpdated := "2025-09-01", assignee := "Dana", description := "done",
    tags := [] }

def specDb : Database :=
  { customers := [acme, globalFinance, goldCustomer]
    tickets := [openTicket, resolvedTicket]
    escalationRules := specEscalationRules }

/-- A ticket created 23 hours before the `now` used in the age evaluation. -/
def ageTicket : Ticket :=
  { id := "TKT-200", customerId := "ENT-001", subject := "Fresh issue",
    status := "pending", priority := "medium", createdAt := 0,
    lastUpdated := "2025-10-10", assignee := "Kim", description := "new",
    tags := [] }

def ageDb : Database :=
  { customers := [acme], tickets := [ageTicket],
    escalationRules := specEscalationRules }

/-- The payload `generateResponseGuidance` produces for `goldCustomer` with the
fallback issue type `account`. -/
def goldAccountGuidance : ResponseGuidance :=
  { customer := { company := "Smallco", tier := "Gold", primaryContact := none }
    issueType := "account"
    responseTemplate := "Hi there,\n\nThank you for contacting Anthropic support. [Address their inquiry]\n\n[Resolution or next steps]"
    toneGuidance := ["Friendly and helpful tone", "Clear, step-by-step guidance"]
    escalationPath := none
    additionalContext := [] }

/-! ### Helper lemmas -/

theorem containsChars_nil (hay : List Char) : containsChars hay [] = true := by
  cases hay <;> simp [containsChars, startsWithChars]

theorem startsWithChars_self_append (n b : List Char) :
    startsWithChars (n ++ b) n = true := by
  induction n with
  | nil => simp [startsWithChars]
  | cons a as ih => simp [startsWithChars, ih]

theorem containsChars_sandwich (a n b : List Char) :
    containsChars (a ++ (n ++ b)) n = true := by
  induction a with
  | nil =>
    cases n with
    | nil => simpa using containsChars_nil b
    | cons m ms =>
      simpa [containsChars] using Or.inl (startsWithChars_self_append (m :: ms) b)
  | cons x xs ih =>
    simpa [containsChars] using Or.inr ih

theorem find?_first_of_split {α} (p : α → Bool) (c : α) (l₁ l₂ : List α)
    (h₁ : ∀ x ∈ l₁, p x = false) (hc : p c = true) :
    (l₁ ++ c :: l₂).find? p = some c := by
  induction l₁ with
  | nil => simpa using List.find?_cons_of_pos l₂ hc
  | cons b bs ih =>
    rw [List.cons_append, List.find?_cons_of_neg]
    · exact ih fun x hx => h₁ x (List.mem_cons_of_mem b hx)
    · simp [h₁ b (List.mem_cons_self b bs)]

theorem append_ite {α} (c : Prop) [Decidable c] (x a : List α) :
    (if c then x ++ a else x) = x ++ if c then a else [] := by
  split <;> simp

theorem ceilDivInt_eq_of (a b d : Int) (hb : 0 < b)
    (h1 : (d - 1) * b < a) (h2 : a ≤ d * b) : ceilDivInt a b = d := by
  unfold ceilDivInt
  have hle : -d ≤ -a / b := by
    rw [Int.le_ediv_iff_mul_le hb]
    have : -d * b = -(d * b) := by ring
    rw [this]
    omega
  have hlt : -a / b < -d + 1 := by
    rw [Int.ediv_lt_iff_lt_mul hb]
    have : (-d + 1) * b = -((d - 1) * b) := by ring
    rw [this]
    omega
  omega

/-! ### Claims -/

/-- C2: for every customer, `generateSupportGuidance` sets `priorityLevel` to
`"HIGH"` exactly when the tier contains the substring `"Enterprise"` (so both
`"Enterprise"` and `"Enterprise Plus"` qualify) and to `"STANDARD"` otherwise. -/
theorem priorityLevel_iff_enterprise (db : Database) (c : Customer) :
    ((generateSupportGuidance db c).priorityLevel = "HIGH" ↔
      strContains c.tier "Enterprise" = true) ∧
    ((generateSupportGuidance db c).priorityLevel = "STANDARD" ↔
      strContains c.tier "Enterprise" = false) := by
  simp only [generateSupportGuidance]
  cases h : strContains c.tier "Enterprise" <;> simp [h]

/-- Witness for C2 at the two documented Enterprise tiers. -/
theorem priorityLevel_iff_enterprise_witness :
    (generateSupportGuidance specDb acme).priorityLevel = "HIGH" ∧
    (generateSupportGuidance specDb globalFinance).priorityLevel = "HIGH" ∧
    (generateSupportGuidance specDb goldCustomer).priorityLevel = "STANDARD" :=
  ⟨(priorityLevel_iff_enterprise specDb acme).1.mpr (by decide),
   (priorityLevel_iff_enterprise specDb globalFinance).1.mpr (by decide),
   (priorityLevel_iff_enterprise specDb goldCustomer).2.mpr (by decide)⟩

/-- C10: on the empty query every company name contains the query as a
substring, so `lookup_customer` resolves the first stored customer and never
returns the not-found payload when the collection is non-empty. -/
theorem lookup_customer_empty_query (db : Database) (c : Customer)
    (rest : List Customer) (h : db.customers = c :: rest) :
    lookup_customer db "" = .found c (generateSupportGuidance db c) ∧
    ∀ m sug, lookup_customer db "" ≠ .notFound m sug := by
  have hmatch : customerMatches (strToLower "") c = true := by
    have hq : strToLower "" = "" := rfl
    have hempty : strContains (strToLower c.company) "" = true := by
      unfold strContains
      have : ("" : String).toList = [] := rfl
      rw [this, containsChars_nil]
    simp [customerMatches, hq, hempty]
  have hfound : lookup_customer db "" = .found c (generateSupportGuidance db c) := by
    unfold lookup_customer findCustomer
    rw [h, List.find?_cons_of_pos rest hmatch]
  refine ⟨hfound, fun m sug hcontra => ?_⟩
  rw [hfound] at hcontra
  exact LookupResult.noConfusion hcontra

/-- Witness for C10 on the concrete non-empty store. -/
theorem lookup_customer_empty_query_witness :
    lookup_customer specDb "" = .found acme (generateSupportGuidance specDb acme) :=
  (lookup_customer_empty_query specDb acme [globalFinance, goldCustomer] rfl).1

/-- C3: `lookup_customer` returns the first customer, in stored order, whose id
case-insensitively equals the query or whose company name case-insensitively
contains it; on no match it returns the structured not-found payload that echoes
the original query inside its message together with a suggestion (and, being a
total function, never throws). -/
theorem lookup_customer_contract (db : Database) (q : String) :
    (∀ c, findCustomer db q = some c →
      customerMatches (strToLower q) c = true ∧
      ∃ l₁ l₂, db.customers = l₁ ++ c :: l₂ ∧
        ∀ x ∈ l₁, customerMatches (strToLower q) x = false) ∧
    (findCustomer db q = none →
      lookup_customer db q =
        .notFound ("No customer found matching \"" ++ q ++ "\"")
          "Try searching by company name or customer ID (e.g., ENT-001)" ∧
      strContains ("No customer found matching \"" ++ q ++ "\"") q = true) := by
  constructor
  · intro c hc
    unfold findCustomer at hc
    obtain ⟨hp, l₁, l₂, hsplit, hbefore⟩ := List.find?_eq_some.mp hc
    exact ⟨hp, l₁, l₂, hsplit, fun x hx => by simpa using hbefore x hx⟩
  · intro hnone
    constructor
    · unfold lookup_customer
      rw [hnone]
    · unfold strContains
      have h1 : ("No customer found matching \"" ++ q ++ "\"").toList =
          ("No customer found matching \"").toList ++
            (q.toList ++ ("\"").toList) := by
        simp [String.toList, String.data_append, List.append_assoc]
      rw [h1]
      exact containsChars_sandwich _ _ _

/-- Witness for C3 at the documented unknown query. -/
theorem lookup_customer_contract_witness :
    lookup_customer specDb "Nonexistent Inc" =
      .notFound ("No customer found matching \"" ++ "Nonexistent Inc" ++ "\"")
        "Try searching by company name or customer ID (e.g., ENT-001)" ∧
    strContains ("No customer found matching \"" ++ "Nonexistent Inc" ++ "\"")
      "Nonexistent Inc" = true :=
  (lookup_customer_contract specDb "Nonexistent Inc").2 (by decide)

/-- C1 (code bug): for a customer whose tier has no entry in the escalation rule
table, the `escalation` branch of `generateResponseGuidance` dereferences the
missing rule (`src/index.ts:406`), so the invocation faults instead of returning
the structured precondition report the specification requires; the fault is not
the ordinary not-found payload either. -/
theorem escalation_missing_rule_faults :
    lookupRule specDb.escalationRules goldCustomer.tier = none ∧
    get_response_guidance specDb "STD-099" "escalation" = .fault ∧
    ∀ m, get_response_guidance specDb "STD-099" "escalation" ≠ .notFound m := by
  refine ⟨by decide, by decide, fun m h => ?_⟩
  rw [show get_response_guidance specDb "STD-099" "escalation" = .fault from by decide] at h
  exact GuidanceResult.noConfusion h

/-- C4: the guidance list is the ordered concatenation of the eight condition
segments of `generateSupportGuidance`, and for an Enterprise Plus customer it
begins with exactly the three strategic-account directives, before any
flag-based, usage-based or known-issues directives. -/
theorem guidance_order (db : Database) (c : Customer) :
    ((generateSupportGuidance db c).keyGuidance =
      (if c.tier == "Enterprise Plus" then
        ["🔴 STRATEGIC ACCOUNT - White-glove service required",
         "Always CC account manager on responses",
         "Proactive status updates every 2 hours for open issues"]
       else if c.tier == "Enterprise" then
        ["Enterprise customer - Prioritize and personalize",
         "Loop in account manager for complex issues"]
       else []) ++
      ((if c.flags.contains "HIGH_VALUE" then
          ["💰 High-value account - Extra care on all interactions"] else []) ++
       (if c.flags.contains "APPROACHING_RENEWAL" then
          ["⚠️ Renewal approaching - Ensure positive experience"] else []) ++
       (if c.flags.contains "EXPANSION_OPPORTUNITY" then
          ["📈 Expansion opportunity - Note upsell potential"] else []) ++
       (if c.flags.contains "COMPLIANCE_SENSITIVE" then
          ["🔒 Compliance-sensitive - Document all interactions thoroughly"] else []) ++
       (if c.apiUsage.utilizationPercent ≥ 90 then
          ["⚡ Approaching API limit - Proactively discuss upgrade options"] else []) ++
       (if c.knownIssues.length > 0 then
          ["📋 Known issues to be aware of: " ++
            String.intercalate "; " c.knownIssues] else []))) ∧
    (c.tier = "Enterprise Plus" →
      (generateSupportGuidance db c).keyGuidance =
        ["🔴 STRATEGIC ACCOUNT - White-glove service required",
         "Always CC account manager on responses",
         "Proactive status updates every 2 hours for open issues"] ++
        ((if c.flags.contains "HIGH_VALUE" then
            ["💰 High-value account - Extra care on all interactions"] else []) ++
         (if c.flags.contains "APPROACHING_RENEWAL" then
            ["⚠️ Renewal approaching - Ensure positive experience"] else []) ++
         (if c.flags.contains "EXPANSION_OPPORTUNITY" then
            ["📈 Expansion opportunity - Note upsell potential"] else []) ++
         (if c.flags.contains "COMPLIANCE_SENSITIVE" then
            ["🔒 Compliance-sensitive - Document all interactions thoroughly"] else []) ++
         (if c.apiUsage.utilizationPercent ≥ 90 then
            ["⚡ Approaching API limit - Proactively discuss upgrade options"] else []) ++
         (if c.knownIssues.length > 0 then
            ["📋 Known issues to be aware of: " ++
              String.intercalate "; " c.knownIssues] else []))) := by
  have hmain : (generateSupportGuidance db c).keyGuidance =
      (if c.tier == "Enterprise Plus" then
        ["🔴 STRATEGIC ACCOUNT - White-glove service required",
         "Always CC account manager on responses",
         "Proactive status updates every 2 hours for open issues"]
       else if c.tier == "Enterprise" then
        ["Enterprise customer - Prioritize and personalize",
         "Loop in account manager for complex issues"]
       else []) ++
      ((if c.flags.contains "HIGH_VALUE" then
          ["💰 High-value account - Extra care on all interactions"] else []) ++
       (if c.flags.contains "APPROACHING_RENEWAL" then
          ["⚠️ Renewal approaching - Ensure positive experience"] else []) ++
       (if c.flags.contains "EXPANSION_OPPORTUNITY" then
          ["📈 Expansion opportunity - Note upsell potential"] else []) ++
       (if c.flags.contains "COMPLIANCE_SENSITIVE" then
          ["🔒 Compliance-sensitive - Document all interactions thoroughly"] else []) ++
       (if c.apiUsage.utilizationPercent ≥ 90 then
          ["⚡ Approaching API limit - Proactively discuss upgrade options"] else []) ++
       (if c.knownIssues.length > 0 then
          ["📋 Known issues to be aware of: " ++
            String.intercalate "; " c.knownIssues] else [])) := by
    simp only [generateSupportGuidance]
    simp only [append_ite]
    simp [List.append_assoc]
  refine ⟨hmain, fun h => ?_⟩
  rw [hmain, h]
  simp

/-- Witness for C4 at the concrete Enterprise Plus customer. -/
theorem guidance_order_witness :
    globalFinance.tier = "Enterprise Plus" ∧
    (generateSupportGuidance specDb globalFinance).keyGuidance =
      ["🔴 STRATEGIC ACCOUNT - White-glove service required",
       "Always CC account manager on responses",
       "Proactive status updates every 2 hours for open issues"] ++
      ["💰 High-value account - Extra care on all interactions"] := by
  refine ⟨rfl, ?_⟩
  have h := (guidance_order specDb globalFinance).2 rfl
  rw [h]
  decide

/-- C6: against the spec-modelled rule table, `responseTimeTarget` is the
matching escalation rule's max response time when the customer's tier has a
rule, and the default `"24 hours"` when it has none. -/
theorem responseTimeTarget_rule_or_default (db : Database) (c : Customer)
    (hdb : db.escalationRules = specEscalationRules) :
    (∀ r, lookupRule db.escalationRules c.tier = some r →
      (generateSupportGuidance db c).responseTimeTarget = r.maxResponseTime) ∧
    (lookupRule db.escalationRules c.tier = none →
      (generateSupportGuidance db c).responseTimeTarget = "24 hours") := by
  constructor
  · intro r hr
    have hne : r.maxResponseTime ≠ "" := by
      rw [hdb] at hr
      unfold lookupRule at hr
      cases hfind : List.find? (fun p => p.fst == c.tier) specEscalationRules with
      | none => rw [hfind] at hr; exact Option.noConfusion hr
      | some p =>
        rw [hfind] at hr
        have hp : p ∈ specEscalationRules := List.mem_of_find?_eq_some hfind
        have hpr : p.snd = r := by simpa using hr
        rw [← hpr]
        simp only [specEscalationRules, List.mem_cons, List.not_mem_nil,
          or_false] at hp
        rcases hp with rfl | rfl | rfl | rfl <;> decide
    simp only [generateSupportGuidance]
    rw [hr]
    simp [hne]
  · intro h0
    simp only [generateSupportGuidance]
    rw [h0]

/-- Witness for C6: rule present for Enterprise, absent for tier Gold. -/
theorem responseTimeTarget_rule_or_default_witness :
    (generateSupportGuidance specDb acme).responseTimeTarget = "4 hours" ∧
    (generateSupportGuidance specDb goldCustomer).responseTimeTarget =
      "24 hours" :=
  ⟨(responseTimeTarget_rule_or_default specDb acme rfl).1 enterpriseRule rfl,
   (responseTimeTarget_rule_or_default specDb goldCustomer rfl).2 rfl⟩

/-- C5: for an existing customer id, `get_open_tickets` returns exactly the
tickets whose `customerId` matches and whose status is open, pending or
in_progress, in stored order; no returned ticket has status resolved or closed;
and when no ticket qualifies the result is the empty list with count 0, not an
error. -/
theorem open_tickets_filter (db : Database) (cid : String) (now : Int)
    (c : Customer) (h : db.customers.find? (fun x => x.id == cid) = some c) :
    get_open_tickets db cid now =
      .found
        { customerId := cid
          company := c.company
          tier := c.tier
          openTicketCount := (db.tickets.filter
            (fun t => t.customerId == cid && openStatuses.contains t.status)).length
          tickets := (db.tickets.filter
            (fun t => t.customerId == cid && openStatuses.contains t.status)).map
              (ticketView now)
          escalationRule := lookupRule db.escalationRules c.tier } ∧
    (∀ tv ∈ (db.tickets.filter
        (fun t => t.customerId == cid && openStatuses.contains t.status)).map
          (ticketView now),
      tv.status ≠ "resolved" ∧ tv.status ≠ "closed" ∧
      ∃ t, t ∈ db.tickets ∧ t.customerId = cid ∧
        (t.status = "open" ∨ t.status = "pending" ∨ t.status = "in_progress") ∧
        tv = ticketView now t) ∧
    (db.tickets.filter
        (fun t => t.customerId == cid && openStatuses.contains t.status) = [] →
      get_open_tickets db cid now =
        .found { customerId := cid, company := c.company, tier := c.tier,
                 openTicketCount := 0, tickets := [],
                 escalationRule := lookupRule db.escalationRules c.tier }) := by
  have h1 : get_open_tickets db cid now =
      .found
        { customerId := cid
          company := c.company
          tier := c.tier
          openTicketCount := (db.tickets.filter
            (fun t => t.customerId == cid && openStatuses.contains t.status)).length
          tickets := (db.tickets.filter
            (fun t => t.customerId == cid && openStatuses.contains t.status)).map
              (ticketView now)
          escalationRule := lookupRule db.escalationRules c.tier } := by
    unfold get_open_tickets
    rw [h]
  refine ⟨h1, ?_, ?_⟩
  · intro tv htv
    obtain ⟨t, htf, rfl⟩ := List.mem_map.mp htv
    obtain ⟨htl, hp⟩ := List.mem_filter.mp htf
    rw [Bool.and_eq_true] at hp
    obtain ⟨hc1, hc2⟩ := hp
    have hcid : t.customerId = cid := by simpa using hc1
    have hst : t.status = "open" ∨ t.status = "pending" ∨
        t.status = "in_progress" := by
      simpa [openStatuses] using hc2
    have hview : (ticketView now t).status = t.status := rfl
    refine ⟨?_, ?_, t, htl, hcid, hst, rfl⟩
    · rw [hview]; rcases hst with hs | hs | hs <;> rw [hs] <;> decide
    · rw [hview]; rcases hst with hs | hs | hs <;> rw [hs] <;> decide
  · intro hempty
    simpa only [hempty, List.length_nil, List.map_nil] using h1

/-- Witness for C5 at the concrete store: the resolved ticket is dropped, the
open ticket kept. -/
theorem open_tickets_filter_witness :
    get_open_tickets specDb "ENT-001" 0 =
      .found { customerId := "ENT-001", company := "Acme Corporation",
               tier := "Enterprise", openTicketCount := 1,
               tickets := [ticketView 0 openTicket],
               escalationRule := some enterpriseRule } ∧
    (ticketView 0 openTicket).status ≠ "resolved" := by
  have h := open_tickets_filter specDb "ENT-001" 0 acme rfl
  constructor
  · rw [h.1]; decide
  · exact (h.2.1 (ticketView 0 openTicket) (by decide)).1

/-- C8: every returned ticket's `ageInDays` is the ceiling of `now - createdAt`
in whole days: it equals the unique integer `d` with
`(d-1)·msPerDay < now - createdAt ≤ d·msPerDay`, so a ticket created exactly
now has age 0 and a ticket created a fraction of a day ago has age 1. -/
theorem ticket_age_is_ceiling (db : Database) (cid : String) (now : Int)
    (s : TicketSummary) (h : get_open_tickets db cid now = .found s)
    (tv : TicketView) (htv : tv ∈ s.tickets) :
    ∃ t, t ∈ db.tickets ∧ tv = ticketView now t ∧
      tv.ageInDays = ticketAgeInDays now t.createdAt ∧
      ∀ d : Int, (d - 1) * msPerDay < now - t.createdAt →
        now - t.createdAt ≤ d * msPerDay → tv.ageInDays = d := by
  unfold get_open_tickets at h
  cases hfind : db.customers.find? (fun c => c.id == cid) with
  | none => rw [hfind] at h; exact OpenTicketsResult.noConfusion h
  | some customer =>
    rw [hfind] at h
    rw [OpenTicketsResult.found.injEq] at h
    rw [← h] at htv
    obtain ⟨t, htf, rfl⟩ := List.mem_map.mp htv
    obtain ⟨htl, _⟩ := List.mem_filter.mp htf
    refine ⟨t, htl, rfl, rfl, fun d h1 h2 => ?_⟩
    have hms : (0 : Int) < msPerDay := by decide
    exact ceilDivInt_eq_of (now - t.createdAt) msPerDay d hms h1 h2

/-- Witness for C8: a ticket created 23 hours (82,800,000 ms) before `now` has
age 1. -/
theorem ticket_age_is_ceiling_witness :
    (ticketView 82800000 ageTicket).ageInDays = 1 := by
  obtain ⟨t, ht, _, _, hall⟩ :=
    ticket_age_is_ceiling ageDb "ENT-001" 82800000
      { customerId := "ENT-001", company := "Acme Corporation",
        tier := "Enterprise", openTicketCount := 1,
        tickets := [ticketView 82800000 ageTicket],
        escalationRule := some enterpriseRule }
      (by decide) (ticketView 82800000 ageTicket) (by decide)
  have ht0 : t = ageTicket := by simpa [ageDb] using ht
  subst ht0
  exact hall 1 (by decide) (by decide)

/-- C7 counterexample: for the Enterprise customer Acme with issue type
`billing` (no escalation additions), the tone guidance has three lines, not the
two the claim asserts. -/
theorem toneGuidance_two_lines_false :
    (generateResponseGuidance specDb acme "billing").map
        (fun g => g.toneGuidance) =
      some ["Use professional, consultative tone",
            "Reference their specific use case if known",
            "Offer direct line or meeting for complex issues"] ∧
    ¬ (generateResponseGuidance specDb acme "billing").map
        (fun g => g.toneGuidance.length) = some 2 :=
  ⟨by decide, by decide⟩

/-- C7 amended: whenever `generateResponseGuidance` returns a payload, its tone
guidance starts with exactly three fixed lines when the tier contains
"Enterprise" and exactly two different fixed lines otherwise, followed only by
the three escalation-specific additions when the issue type is `escalation`. -/
theorem toneGuidance_amended (db : Database) (c : Customer) (it : String)
    (g : ResponseGuidance) (h : generateResponseGuidance db c it = some g) :
    g.toneGuidance =
      (if strContains c.tier "Enterprise" then
        ["Use professional, consultative tone",
         "Reference their specific use case if known",
         "Offer direct line or meeting for complex issues"]
       else
        ["Friendly and helpful tone",
         "Clear, step-by-step guidance"]) ++
      (if it = "escalation" then
        ["Acknowledge frustration", "Provide concrete timeline", "Take ownership"]
       else []) := by
  simp only [generateResponseGuidance] at h
  split at h
  · rename_i hb
    obtain rfl : _ = g := Option.some.inj h
    have hbe : it = "billing" := by simpa using hb
    subst hbe
    simp
  · rename_i hb
    split at h
    · rename_i hat
      obtain rfl : _ = g := Option.some.inj h
      have : it = "api" ∨ it = "technical" := by
        rcases Bool.or_eq_true _ _ |>.mp hat with h' | h'
        · exact Or.inl (by simpa using h')
        · exact Or.inr (by simpa using h')
      rcases this with rfl | rfl <;> simp
    · rename_i hat
      split at h
      · rename_i he
        have hee : it = "escalation" := by simpa using he
        subst hee
        split at h
        · exact Option.noConfusion h
        · obtain rfl : _ = g := Option.some.inj h
          simp
      · rename_i he
        obtain rfl : _ = g := Option.some.inj h
        have h3 : ¬ it = "escalation" := by simpa using he
        simp [h3]

/-- Witness for C7 amended at the non-Enterprise customer with the fallback
issue type. -/
theorem toneGuidance_amended_witness :
    goldAccountGuidance.toneGuidance =
      ["Friendly and helpful tone", "Clear, step-by-step guidance"] := by
  have h := toneGuidance_amended specDb goldCustomer "account"
    goldAccountGuidance (by decide)
  rw [h]
  decide

/-- C9: `get_open_tickets` and `get_response_guidance` compare the supplied id
case-sensitively, so a string that matches a stored customer id only up to
letter case (and equals no stored id exactly) yields the not-found payload from
both, while `lookup_customer` with the same string resolves that customer,
its id match being case-insensitive. -/
theorem id_match_case_sensitivity (db : Database) (c : Customer) (s : String)
    (now : Int) (it : String) (l₁ l₂ : List Customer)
    (hsplit : db.customers = l₁ ++ c :: l₂)
    (hlow : strToLower s = strToLower c.id)
    (hids : ∀ x ∈ db.customers, x.id ≠ s)
    (hearlier : ∀ x ∈ l₁, customerMatches (strToLower s) x = false) :
    get_open_tickets db s now =
      .notFound ("No customer found with ID \"" ++ s ++ "\"") ∧
    get_response_guidance db s it =
      .notFound ("No customer found with ID \"" ++ s ++ "\"") ∧
    lookup_customer db s = .found c (generateSupportGuidance db c) := by
  have hnone : db.customers.find? (fun x => x.id == s) = none :=
    List.find?_eq_none.mpr fun x hx => by simpa using hids x hx
  refine ⟨?_, ?_, ?_⟩
  · unfold get_open_tickets
    rw [hnone]
  · unfold get_response_guidance
    rw [hnone]
  · have hmatch : customerMatches (strToLower s) c = true := by
      unfold customerMatches
      rw [← hlow]
      simp
    unfold lookup_customer findCustomer
    rw [hsplit, find?_first_of_split _ c l₁ l₂ hearlier hmatch]

/-- Witness for C9: the query "ent-001" differs from the stored id "ENT-001"
only in letter case. -/
theorem id_match_case_sensitivity_witness :
    get_open_tickets specDb "ent-001" 0 =
      .notFound ("No customer found with ID \"" ++ "ent-001" ++ "\"") ∧
    get_response_guidance specDb "ent-001" "billing" =
      .notFound ("No customer found with ID \"" ++ "ent-001" ++ "\"") ∧
    lookup_customer specDb "ent-001" =
      .found acme (generateSupportGuidance specDb acme) :=
  id_match_case_sensitivity specDb acme "ent-001" 0 "billing"
    [] [globalFinance, goldCustomer] rfl (by decide) (by decide)
    (by intro x hx; exact absurd hx (List.not_mem_nil x))

end McpSupport
